import Mathlib

/-!
Verification of the multi-provider payment reconciliation subsystem of the
vpn-bot repository.  The definitions below are a shallow embedding of
`bot/services/severpay_service.py`, `bot/services/platega_service.py` and the
payment-initiation handlers
`bot/handlers/user/subscription/payments_severpay.py` /
`payments_freekassa.py`.  Database sessions are modelled by explicit state
passing over a list of payment records; exceptions raised by fallible steps
(database writes, the entitlement granter, the referral side effect, commit,
outbound notifications) are modelled by a record of boolean fault flags, and
`try/except` + `session.rollback()` becomes reverting to the pre-transaction
database state.  Money amounts are rationals (Python `Decimal` semantics on
the values that occur here).
-/

namespace VpnBot

/-- A local payment record (the `Payment` ORM row, fields used by the
reconciliation subsystem). `subscription_duration_months` is the overloaded
quantity column: whole months in subscription mode, GB in traffic mode;
`none` models SQL NULL. -/
structure PaymentRecord where
  payment_id : Nat
  user_id : Int
  amount : ℚ
  currency : String
  provider : String
  provider_payment_id : Option String
  status : String
  subscription_duration_months : Option ℚ
deriving Repr, DecidableEq

/-- The payment table of the database, keyed by `payment_id`. -/
abbrev DB := List PaymentRecord

/-- Modelled from the spec: `db.dal.payment_dal.get_payment_by_db_id` is not
under `src/` (only its callers are).  Per the spec the Payment Record Store is
thin plumbing: a lookup of the record with the locally assigned `payment_id`.
The argument is `Int` because the SeverPay webhook passes a Python `int`
decoded from the callback. -/
def get_payment_by_db_id (db : DB) (i : Int) : Option PaymentRecord :=
  db.find? (fun p => (p.payment_id : Int) == i)

/-- Modelled from the spec: `db.dal.payment_dal.get_payment_by_provider_payment_id`
is not under `src/`.  Lookup of the record whose provider-assigned id equals
the given string. -/
def get_payment_by_provider_payment_id (db : DB) (pid : String) : Option PaymentRecord :=
  db.find? (fun p => p.provider_payment_id == some pid)

/-- Modelled from the spec: `db.dal.payment_dal.update_provider_payment_and_status`
is not under `src/`.  It is a thin unconditional write of the two fields of
the record with the given `payment_id`: its call sites in `src/` pass the
record's *current* status explicitly when they want the status preserved
(e.g. `payments_severpay.py` line 118 passes `payment_record.status`), which
is only meaningful if the function sets the status to its argument. -/
def update_provider_payment_and_status (db : DB) (pid : Nat) (provider_id : String)
    (st : String) : DB :=
  db.map (fun p =>
    if p.payment_id = pid then
      { p with provider_payment_id := some provider_id, status := st }
    else p)

/-- Modelled from the spec: `db.dal.payment_dal.update_payment_status_by_db_id`
is not under `src/`.  Thin unconditional write of `status`. -/
def update_payment_status_by_db_id (db : DB) (pid : Nat) (st : String) : DB :=
  db.map (fun p => if p.payment_id = pid then { p with status := st } else p)

/-- Python `x.get(k) or ""` for an optional string: `None` and `""` are falsy. -/
def optStr (a : Option String) : String := a.getD ""

/-- Python `a or b` on two optional strings, then `str(... or "")`:
the first truthy (non-`None`, non-empty) value, else `""`. -/
def pyOr2 (a b : Option String) : String :=
  if optStr a ≠ "" then optStr a else optStr b

/-- Python `a or b or c` on three optional strings, else `""`. -/
def pyOr3 (a b c : Option String) : String :=
  if optStr a ≠ "" then optStr a else pyOr2 b c

/-- Python `payment.subscription_duration_months or 1`: `None` and `0` are
falsy and fall back to `1`. -/
def orOne (q : Option ℚ) : ℚ :=
  match q with
  | none => 1
  | some x => if x = 0 then 1 else x

/-- Python `int(...)` on a rational: truncation toward zero, expressed with
numerator/denominator arithmetic. -/
def pyInt (q : ℚ) : Int :=
  if 0 ≤ q then ((q.num.natAbs / q.den : Nat) : Int)
  else -((q.num.natAbs / q.den : Nat) : Int)

/-- Python `str.isdigit` (as used on `order_id`): non-empty and all digits. -/
def pyIsDigit (s : String) : Bool := s ≠ "" && s.data.all Char.isDigit

/-- Python `int(s)` for an all-digit string. -/
def strToNat (s : String) : Nat := s.data.foldl (fun n c => n * 10 + (c.toNat - 48)) 0

/-- Python `str.lower()`. -/
def pyLower (s : String) : String := String.mk (s.data.map Char.toLower)

/-- Python `str.upper()`. -/
def pyUpper (s : String) : String := String.mk (s.data.map Char.toUpper)

/-- Python `str.strip()`: remove leading and trailing whitespace. -/
def pyStrip (s : String) : String :=
  String.mk (((s.data.dropWhile Char.isWhitespace).reverse.dropWhile Char.isWhitespace).reverse)

/-- `Decimal(str(x)).quantize(Decimal("0.01"), rounding=ROUND_HALF_UP)`,
expressed in integer cents (two quantized decimals are equal iff their cent
values are equal): round half away from zero at two decimal places. -/
def cents2 (q : ℚ) : Int :=
  if 0 ≤ q then ((2 * (100 * q.num.natAbs) + q.den) / (2 * q.den) : Nat)
  else -(((2 * (100 * q.num.natAbs) + q.den) / (2 * q.den) : Nat) : Int)

/-- One invocation of the entitlement granter
`SubscriptionService.activate_subscription` with the arguments the webhook
routes pass. -/
structure ActivationCall where
  user_id : Int
  months : Int
  amount : ℚ
  payment_db_id : Nat
  provider : String
  sale_mode : String
  traffic_gb : Option ℚ
deriving Repr, DecidableEq

/-- One invocation of `ReferralService.apply_referral_bonuses_for_payment`. -/
structure ReferralCall where
  user_id : Int
  months : Int
  payment_db_id : Nat
deriving Repr, DecidableEq

/-- Fault flags: whether each fallible step of a webhook raises.  The first
four model exceptions inside the database transaction (caught by the
`try/except` that rolls back); the last two model failures of the post-commit
best-effort notifications (caught and only logged). -/
structure Faults where
  updateRaises : Bool
  activateRaises : Bool
  referralRaises : Bool
  commitRaises : Bool
  notifyUserFails : Bool
  notifyAdminFails : Bool
deriving Repr, DecidableEq

/-- The fault-free execution. -/
def Faults.noFaults : Faults :=
  { updateRaises := false, activateRaises := false, referralRaises := false
    commitRaises := false, notifyUserFails := false, notifyAdminFails := false }

/-- Observable outcome of one webhook delivery: the HTTP response, the
database state after the route returns, the payment lookups performed, the
entitlement/referral invocations, the attempted outbound messages
(`(user_id, kind)`), the number of attempted operator notifications and the
warnings logged. -/
structure WebhookResult where
  respStatus : Nat
  respBody : String
  db : DB
  lookups : List String
  activations : List ActivationCall
  referrals : List ReferralCall
  userMsgs : List (Int × String)
  adminNotifs : Nat
  warnings : List String
deriving Repr, DecidableEq

/-- A response produced before (or without) any side effect. -/
def pureResult (s : Nat) (b : String) (db : DB) : WebhookResult :=
  { respStatus := s, respBody := b, db := db, lookups := [], activations := []
    referrals := [], userMsgs := [], adminNotifs := 0, warnings := [] }

/-! ## SeverPay webhook (`SeverPayService.webhook_route`) -/

/-- The JSON value found at `data.order_id` of a SeverPay callback. -/
inductive SPOrderId where
  | intVal (n : Int)
  | strVal (s : String)
  | absent
deriving Repr, DecidableEq

/-- The `data` object of a SeverPay `payin` callback (fields the route reads). -/
structure SPData where
  id : Option String
  uid : Option String
  order_id : SPOrderId
  status : Option String
deriving Repr, DecidableEq

/-- The `data` field of the callback payload: missing/`None` (then `or {}`
yields an empty dict), a non-dict JSON value, or an object. -/
inductive SPDataField where
  | absent
  | nonDict
  | obj (d : SPData)
deriving Repr, DecidableEq

/-- A SeverPay callback payload (top-level JSON object). -/
structure SPPayload where
  sign : Option String
  eventType : Option String
  data : SPDataField
deriving Repr, DecidableEq

/-- The request body as decoded by `request.json()`. -/
inductive SPBody where
  | invalidJson
  | nonDictJson
  | obj (p : SPPayload)
deriving Repr, DecidableEq

/-- The `data = {k: v for k, v in payload.items() if k != "sign"}` step of
`_validate_signature`: the payload minus its `sign` field. -/
def spStripSign (p : SPPayload) : SPPayload := { p with sign := none }

/-- `SeverPayService._validate_signature`.  `hsig` abstracts
`_sign_payload` (HMAC-SHA256 over the canonical JSON dump, keyed by the
merchant token); `hmac.compare_digest` is equality. -/
def sp_validate_signature (token : String) (hsig : SPPayload → String)
    (p : SPPayload) : Bool :=
  let provided := optStr p.sign
  if provided = "" || token = "" then false
  else provided == hsig (spStripSign p)

/-- Configuration of the SeverPay service (fields the webhook route reads). -/
structure SPConfig where
  configured : Bool
  token : String
  trafficSaleMode : Bool
deriving Repr, DecidableEq

/-- Decoding of `payment_db_id` from `data.order_id`: a Python `int` is taken
as is; a string is accepted only when `str.isdigit`. -/
def spOrderId (o : SPOrderId) : Option Int :=
  match o with
  | .intVal n => some n
  | .strVal s => if pyIsDigit s then some ((strToNat s : Nat) : Int) else none
  | .absent => none

/-- The two-step payment lookup of the SeverPay route: by local db id when the
callback carried one, else (when that found nothing and a provider id is
present) by provider payment id.  Returns the record found and the trace of
lookups performed. -/
def severpay_lookup (db : DB) (pdbid : Option Int) (ppid : String) :
    Option PaymentRecord × List String :=
  match pdbid with
  | some i =>
    match get_payment_by_db_id db i with
    | some p => (some p, ["payments_by_db_id"])
    | none =>
      if ppid ≠ "" then
        (get_payment_by_provider_payment_id db ppid,
         ["payments_by_db_id", "payments_by_provider_id"])
      else (none, ["payments_by_db_id"])
  | none =>
    if ppid ≠ "" then
      (get_payment_by_provider_payment_id db ppid, ["payments_by_provider_id"])
    else (none, [])

/-- The arguments the webhook routes pass to
`SubscriptionService.activate_subscription`:
`int(payment_months) if sale_mode != "traffic" else 0` months,
`float(payment.amount)` (the *stored* amount), the local payment id, and
`traffic_gb=payment_months` in traffic mode.  `sale_mode != "traffic"` is
by construction equivalent to the traffic flag being off. -/
def activation_call (traffic : Bool) (provider : String) (pr : PaymentRecord) :
    ActivationCall :=
  let pm := orOne pr.subscription_duration_months
  { user_id := pr.user_id
    months := if !traffic then pyInt pm else 0
    amount := pr.amount
    payment_db_id := pr.payment_id
    provider := provider
    sale_mode := if traffic then "traffic" else "subscription"
    traffic_gb := if traffic then some pm else none }

/-- The arguments the webhook routes pass to
`ReferralService.apply_referral_bonuses_for_payment`. -/
def referral_call (pr : PaymentRecord) : ReferralCall :=
  { user_id := pr.user_id, months := pyInt (orOne pr.subscription_duration_months)
    payment_db_id := pr.payment_id }

/-- The `status == "success"` branch of the SeverPay route: inside one
transaction set the record to `succeeded`, invoke the entitlement granter,
apply the referral bonus (subscription mode only) and commit; any exception
rolls everything back and answers 500.  After a successful commit the user
and operator notifications are attempted; their failures are only logged. -/
def severpay_success (cfg : SPConfig) (f : Faults) (db : DB) (lk : List String)
    (pr : PaymentRecord) (ppid : String) : WebhookResult :=
  let pid := if ppid ≠ "" then ppid else toString pr.payment_id
  if f.updateRaises then
    { pureResult 500 "processing_error" db with lookups := lk }
  else
    let db1 := update_provider_payment_and_status db pr.payment_id pid "succeeded"
    let act := activation_call cfg.trafficSaleMode "severpay" pr
    if f.activateRaises then
      { pureResult 500 "processing_error" db with lookups := lk, activations := [act] }
    else
      let refs : List ReferralCall :=
        if !cfg.trafficSaleMode then [referral_call pr] else []
      if (!cfg.trafficSaleMode && f.referralRaises) || f.commitRaises then
        { pureResult 500 "processing_error" db with
            lookups := lk, activations := [act], referrals := refs }
      else
        { respStatus := 200, respBody := "ok", db := db1, lookups := lk
          activations := [act], referrals := refs
          userMsgs := [(pr.user_id, "payment_successful")], adminNotifs := 1
          warnings := (if f.notifyUserFails then ["notify_user_failed"] else []) ++
                      (if f.notifyAdminFails then ["notify_admin_failed"] else []) }

/-- The `status in {"fail", "decline"}` branch: mark the record `failed`
(rollback + 500 on exception), then best-effort "payment failed" message. -/
def severpay_failed (f : Faults) (db : DB) (lk : List String)
    (pr : PaymentRecord) (ppid : String) : WebhookResult :=
  let pid := if ppid ≠ "" then ppid else toString pr.payment_id
  if f.updateRaises || f.commitRaises then
    { pureResult 500 "processing_error" db with lookups := lk }
  else
    { pureResult 200 "ok" (update_provider_payment_and_status db pr.payment_id pid "failed") with
        lookups := lk, userMsgs := [(pr.user_id, "payment_failed")] }

/-- The `status in {"process", "new"}` branch: store the provider id with
status `pending_severpay`; an exception only rolls back and is logged, the
response is 200 either way. -/
def severpay_pending (f : Faults) (db : DB) (lk : List String)
    (pr : PaymentRecord) (ppid : String) : WebhookResult :=
  let pid := if ppid ≠ "" then ppid else toString pr.payment_id
  if f.updateRaises || f.commitRaises then
    { pureResult 200 "ok" db with lookups := lk }
  else
    { pureResult 200 "ok"
        (update_provider_payment_and_status db pr.payment_id pid "pending_severpay") with
        lookups := lk }

/-- Dispatch on the normalized (lowercased) callback status for a found
payment record. -/
def severpay_dispatch (cfg : SPConfig) (f : Faults) (db : DB) (lk : List String)
    (pr : PaymentRecord) (ppid : String) (st : String) : WebhookResult :=
  if st = "success" then severpay_success cfg f db lk pr ppid
  else if st = "fail" ∨ st = "decline" then severpay_failed f db lk pr ppid
  else if st = "process" ∨ st = "new" then severpay_pending f db lk pr ppid
  else { pureResult 200 "ok" db with lookups := lk }

/-- Processing of a `payin` event's `data` object: decode identifiers, look
the payment up, 404 when nothing is found, else dispatch on the status. -/
def severpay_process (cfg : SPConfig) (f : Faults) (db : DB) (d : SPData) :
    WebhookResult :=
  let ppid := pyOr2 d.id d.uid
  let res := severpay_lookup db (spOrderId d.order_id) ppid
  match res.1 with
  | none => { pureResult 404 "payment_not_found" db with lookups := res.2 }
  | some pr => severpay_dispatch cfg f db res.2 pr ppid (pyLower (optStr d.status))

/-- Dispatch on the event type and the shape of the `data` field: anything
other than a `payin` event with a dict `data` is acknowledged with 200 and
ignored (`payload.get("data") or {}` turns a missing `data` into an empty
dict, which still enters processing). -/
def severpay_event (cfg : SPConfig) (f : Faults) (db : DB) (et : String)
    (dat : SPDataField) : WebhookResult :=
  match dat with
  | .nonDict => pureResult 200 "ok" db
  | .absent =>
    if et = "payin" then
      severpay_process cfg f db { id := none, uid := none, order_id := .absent, status := none }
    else pureResult 200 "ok" db
  | .obj d =>
    if et = "payin" then severpay_process cfg f db d
    else pureResult 200 "ok" db

/-- `SeverPayService.webhook_route`: 503 when unconfigured, 400 on a body that
is not JSON, 403 when the payload is not a dict or its HMAC signature does
not verify, then event processing. -/
def severpay_webhook_route (cfg : SPConfig) (hsig : SPPayload → String)
    (f : Faults) (db : DB) (body : SPBody) : WebhookResult :=
  if cfg.configured then
    match body with
    | .invalidJson => pureResult 400 "bad_request" db
    | .nonDictJson => pureResult 403 "invalid_signature" db
    | .obj p =>
      if sp_validate_signature cfg.token hsig p then
        severpay_event cfg f db (pyLower (optStr p.eventType)) p.data
      else pureResult 403 "invalid_signature" db
  else pureResult 503 "severpay_disabled" db

/-! ## Platega webhook (`PlategaService.webhook_route`) -/

/-- The `amount` field of a Platega callback: a number, or a value on which
`Decimal(str(...))` raises (caught, logged as a compare warning). -/
inductive PAmount where
  | num (q : ℚ)
  | junk
deriving Repr, DecidableEq

/-- Body of a Platega callback (fields the route reads). -/
structure PlategaData where
  id : Option String
  transactionId : Option String
  status : Option String
  amount : Option PAmount
deriving Repr, DecidableEq

/-- The request body as decoded by `request.json()`. -/
inductive PBody where
  | invalidJson
  | obj (d : PlategaData)
deriving Repr, DecidableEq

/-- One Platega webhook request: the two auth headers plus the body. -/
structure PlategaRequest where
  headerMerchant : Option String
  headerSecret : Option String
  body : PBody
deriving Repr, DecidableEq

/-- Configuration of the Platega service (fields the webhook route reads). -/
structure PlategaConfig where
  configured : Bool
  merchantId : Option String
  secret : Option String
  trafficSaleMode : Bool
deriving Repr, DecidableEq

/-- Header authentication of the Platega route:
`X-MerchantId` and `X-Secret` must equal the configured pair. -/
def platega_headers_ok (cfg : PlategaConfig) (req : PlategaRequest) : Bool :=
  req.headerMerchant == cfg.merchantId && req.headerSecret == cfg.secret

/-- The amount check of the `CONFIRMED` branch: compare the callback amount
(rounded to cents) with the stored amount; a mismatch or an unparseable
value only produces a warning. -/
def platega_amount_warnings (pr : PaymentRecord) (am : Option PAmount) : List String :=
  match am with
  | none => []
  | some .junk => ["amount_compare_failed"]
  | some (.num q) => if cents2 q ≠ cents2 pr.amount then ["amount_mismatch"] else []

/-- The `status == "CONFIRMED"` branch for a record that is not already
`succeeded`: emit the amount warnings, then inside one transaction set the
record to `succeeded`, invoke the entitlement granter with the *stored*
amount, apply the referral bonus (subscription mode only) and commit; any
exception rolls everything back and answers 500.  Post-commit notifications
are attempted; their failures are only logged. -/
def platega_confirm (cfg : PlategaConfig) (f : Faults) (db : DB) (lk : List String)
    (pr : PaymentRecord) (tid : String) (aw : List String) : WebhookResult :=
  if f.updateRaises then
    { pureResult 500 "processing_error" db with lookups := lk, warnings := aw }
  else
    let db1 := update_provider_payment_and_status db pr.payment_id tid "succeeded"
    let act := activation_call cfg.trafficSaleMode "platega" pr
    if f.activateRaises then
      { pureResult 500 "processing_error" db with
          lookups := lk, activations := [act], warnings := aw }
    else
      let refs : List ReferralCall :=
        if !cfg.trafficSaleMode then [referral_call pr] else []
      if (!cfg.trafficSaleMode && f.referralRaises) || f.commitRaises then
        { pureResult 500 "processing_error" db with
            lookups := lk, activations := [act], referrals := refs, warnings := aw }
      else
        { respStatus := 200, respBody := "ok", db := db1, lookups := lk
          activations := [act], referrals := refs
          userMsgs := [(pr.user_id, "payment_successful")], adminNotifs := 1
          warnings := aw ++ (if f.notifyUserFails then ["notify_user_failed"] else []) ++
                      (if f.notifyAdminFails then ["notify_admin_failed"] else []) }

/-- The `status in {"CANCELED", "CANCELLED", "CHARGEBACKED"}` branch: mark
the record `canceled` (rollback + 500 on exception), then best-effort
"payment failed" message and answer `ok_canceled`. -/
def platega_cancel (f : Faults) (db : DB) (lk : List String)
    (pr : PaymentRecord) (tid : String) : WebhookResult :=
  if f.updateRaises || f.commitRaises then
    { pureResult 500 "processing_error" db with lookups := lk }
  else
    { pureResult 200 "ok_canceled"
        (update_provider_payment_and_status db pr.payment_id tid "canceled") with
        lookups := lk, userMsgs := [(pr.user_id, "payment_failed")] }

/-- Dispatch on the normalized (uppercased) status for a found record.  A
`CONFIRMED` callback for an already-`succeeded` record is the idempotent
no-op 200 of line 157; unhandled statuses are acknowledged with 202. -/
def platega_dispatch (cfg : PlategaConfig) (f : Faults) (db : DB)
    (pr : PaymentRecord) (tid : String) (st : String) (am : Option PAmount) :
    WebhookResult :=
  let lk := ["payments_by_provider_id"]
  if pr.status = "succeeded" ∧ st = "CONFIRMED" then
    { pureResult 200 "ok" db with lookups := lk }
  else if st = "CONFIRMED" then
    platega_confirm cfg f db lk pr tid (platega_amount_warnings pr am)
  else if st = "CANCELED" ∨ st = "CANCELLED" ∨ st = "CHARGEBACKED" then
    platega_cancel f db lk pr tid
  else { pureResult 202 "status_ignored" db with lookups := lk }

/-- Processing of an authenticated Platega callback body: decode the
transaction id and status, 400 when either is missing, look the payment up
by provider id, 404 when not found, else dispatch. -/
def platega_process (cfg : PlategaConfig) (f : Faults) (db : DB)
    (d : PlategaData) : WebhookResult :=
  let tid := pyStrip (pyOr2 d.id d.transactionId)
  let st := pyUpper (optStr d.status)
  if tid = "" ∨ st = "" then pureResult 400 "missing_fields" db
  else
    match get_payment_by_provider_payment_id db tid with
    | none => { pureResult 404 "payment_not_found" db with lookups := ["payments_by_provider_id"] }
    | some pr => platega_dispatch cfg f db pr tid st d.amount

/-- `PlategaService.webhook_route`: 503 when unconfigured, 400 on a body
that is not JSON, 403 when the merchant headers do not match, then
callback processing. -/
def platega_webhook_route (cfg : PlategaConfig) (f : Faults) (db : DB)
    (req : PlategaRequest) : WebhookResult :=
  if cfg.configured then
    match req.body with
    | .invalidJson => pureResult 400 "bad_request" db
    | .obj d =>
      if platega_headers_ok cfg req then platega_process cfg f db d
      else pureResult 403 "forbidden" db
  else pureResult 503 "platega_disabled" db

/-! ## Payment-intent creation
(`SeverPayService.create_payment`, `PlategaService.create_transaction`) -/

/-- What the provider-side HTTP exchange can produce: a raised exception
(network failure / timeout, caught by the `except Exception` clause), or a
response with a status code and a body.  The body is empty text (parsed as
an empty dict), invalid JSON, or a JSON object of which the routes read the
truthiness of its `status` field. -/
inductive ApiOutcome where
  | exc (msg : String)
  | respEmpty (httpStatus : Nat)
  | respInvalidJson (httpStatus : Nat) (raw : String)
  | respObj (httpStatus : Nat) (statusFlagTruthy : Bool)
deriving Repr, DecidableEq

/-- Diagnostic payload returned alongside the success boolean. -/
inductive CreatePayload where
  | notConfigured
  | invalidJsonResp (httpStatus : Nat) (raw : String)
  | apiError (httpStatus : Nat)
  | excMsg (msg : String)
  | okData
deriving Repr, DecidableEq

/-- `SeverPayService.create_payment`, as a total function of the provider
outcome: every failure class is converted to `(false, diagnostic)`; success
requires HTTP 200 and a truthy `status` field in the response object. -/
def severpay_create_payment (configured : Bool) (outcome : ApiOutcome) :
    Bool × CreatePayload :=
  if ¬configured then (false, .notConfigured)
  else
    match outcome with
    | .exc m => (false, .excMsg m)
    | .respEmpty s => (false, .apiError s)
    | .respInvalidJson s raw => (false, .invalidJsonResp s raw)
    | .respObj s flag =>
      if s ≠ 200 || !flag then (false, .apiError s) else (true, .okData)

/-- `PlategaService.create_transaction`, as a total function of the provider
outcome: every failure class is converted to `(false, diagnostic)`; success
requires only HTTP 200 (any parsed body). -/
def platega_create_transaction (configured : Bool) (outcome : ApiOutcome) :
    Bool × CreatePayload :=
  if ¬configured then (false, .notConfigured)
  else
    match outcome with
    | .exc m => (false, .excMsg m)
    | .respEmpty s => if s ≠ 200 then (false, .apiError s) else (true, .okData)
    | .respInvalidJson s raw => (false, .invalidJsonResp s raw)
    | .respObj s _ => if s ≠ 200 then (false, .apiError s) else (true, .okData)

/-! ## Payment-initiation handlers after record insertion
(`pay_severpay_callback_handler`, `pay_fk_callback_handler`) -/

/-- The response data of a successful SeverPay `create_payment` as the
handler reads it. -/
structure SPCreateResp where
  url : Option String
  payment_url : Option String
  paymentUrl : Option String
  id : Option String
  uid : Option String
deriving Repr, DecidableEq

/-- The response data of a successful FreeKassa `create_order` as the
handler reads it. -/
structure FKCreateResp where
  location : Option String
  orderHash : Option String
  orderId : Option String
deriving Repr, DecidableEq

/-- Observable outcome of the tail of a payment-initiation handler. -/
structure HandlerResult where
  db : DB
  userMessage : String
  activations : List ActivationCall
deriving Repr, DecidableEq

/-- Tail of `pay_severpay_callback_handler` after the pending record `rec`
was inserted and committed: on a successful create with a provider id,
store the id keeping the current status (a failure there only rolls back and
is logged); when a payment link is present, show it; otherwise — including
every failed create — mark the record `failed_creation` (best effort) and
show the gateway-error message.  The handler never invokes the entitlement
granter. -/
def severpay_pay_handler_tail (success : Bool) (resp : SPCreateResp)
    (storeIdRaises markFailedRaises : Bool) (db : DB) (rec : PaymentRecord) :
    HandlerResult :=
  let link := pyOr3 resp.url resp.payment_url resp.paymentUrl
  let pid := pyOr2 resp.id resp.uid
  if success then
    let db1 :=
      if pid ≠ "" && !storeIdRaises then
        update_provider_payment_and_status db rec.payment_id pid rec.status
      else db
    if link ≠ "" then
      { db := db1, userMessage := "payment_link_message", activations := [] }
    else
      let db2 :=
        if !markFailedRaises then
          update_payment_status_by_db_id db1 rec.payment_id "failed_creation"
        else db1
      { db := db2, userMessage := "error_payment_gateway", activations := [] }
  else
    let db2 :=
      if !markFailedRaises then
        update_payment_status_by_db_id db rec.payment_id "failed_creation"
      else db
    { db := db2, userMessage := "error_payment_gateway", activations := [] }

/-- Tail of `pay_fk_callback_handler` after the pending record `rec` was
inserted and committed; same shape as the SeverPay handler with FreeKassa
field names (`location`, `orderHash or orderId`). -/
def freekassa_pay_handler_tail (success : Bool) (resp : FKCreateResp)
    (storeIdRaises markFailedRaises : Bool) (db : DB) (rec : PaymentRecord) :
    HandlerResult :=
  let link := optStr resp.location
  let pid := pyOr2 resp.orderHash resp.orderId
  if success then
    let db1 :=
      if pid ≠ "" && !storeIdRaises then
        update_provider_payment_and_status db rec.payment_id pid rec.status
      else db
    if link ≠ "" then
      { db := db1, userMessage := "payment_link_message", activations := [] }
    else
      let db2 :=
        if !markFailedRaises then
          update_payment_status_by_db_id db1 rec.payment_id "failed_creation"
        else db1
      { db := db2, userMessage := "error_payment_gateway", activations := [] }
  else
    let db2 :=
      if !markFailedRaises then
        update_payment_status_by_db_id db rec.payment_id "failed_creation"
      else db
    { db := db2, userMessage := "error_payment_gateway", activations := [] }

/-! ## Concrete fixtures used by the closed theorems -/

/-- A configured SeverPay service in subscription mode. -/
def sampleSPCfg : SPConfig := { configured := true, token := "tok", trafficSaleMode := false }

/-- A concrete stand-in for the HMAC-SHA256 oracle `_sign_payload`. -/
def sampleSig : SPPayload → String := fun _ => "SIG"

/-- A pending SeverPay payment record: 299 RUB for 1 month. -/
def samplePendingRec : PaymentRecord :=
  { payment_id := 1, user_id := 42, amount := 299, currency := "RUB"
    provider := "severpay", provider_payment_id := none
    status := "pending_severpay", subscription_duration_months := some 1 }

/-- The same record after a successful reconciliation. -/
def sampleSucceededRec : PaymentRecord :=
  { samplePendingRec with status := "succeeded", provider_payment_id := some "prov-1" }

/-- A correctly signed SeverPay `payin` callback for payment 1 with the
given status. -/
def spPayload (st : String) : SPPayload :=
  { sign := some "SIG", eventType := some "payin"
    data := .obj { id := some "prov-1", uid := none, order_id := .intVal 1, status := some st } }

/-- A configured Platega service in subscription mode. -/
def samplePlategaCfg : PlategaConfig :=
  { configured := true, merchantId := some "MID", secret := some "SEC", trafficSaleMode := false }

/-- A pending Platega payment record: 299 RUB for 1 month, transaction tx-1. -/
def samplePlategaRec : PaymentRecord :=
  { payment_id := 2, user_id := 42, amount := 299, currency := "RUB"
    provider := "platega", provider_payment_id := some "tx-1"
    status := "pending_platega", subscription_duration_months := some 1 }

/-- A Platega callback for transaction tx-1 with matching merchant headers. -/
def plategaReq (st : String) (am : Option PAmount) : PlategaRequest :=
  { headerMerchant := some "MID", headerSecret := some "SEC"
    body := .obj { id := some "tx-1", transactionId := none, status := some st, amount := am } }

/-- A pending SeverPay record whose quantity column is NULL. -/
def sampleNullMonthsRec : PaymentRecord :=
  { samplePendingRec with subscription_duration_months := none }

/-- A pending Platega record whose quantity column is 0. -/
def sampleZeroMonthsPlategaRec : PaymentRecord :=
  { samplePlategaRec with subscription_duration_months := some 0 }

/-! ## Helper lemmas -/

theorem get_payment_by_db_id_after_provider_update (db : DB) (i : Nat)
    (pid st : String) :
    get_payment_by_db_id (update_provider_payment_and_status db i pid st) (i : Int) =
      (get_payment_by_db_id db (i : Int)).map
        (fun p => { p with provider_payment_id := some pid, status := st }) := by
  induction db with
  | nil => rfl
  | cons a t ih =>
    unfold update_provider_payment_and_status get_payment_by_db_id at ih ⊢
    by_cases h : a.payment_id = i
    · simp [h]
    · have hb : ((a.payment_id : Int) == (i : Int)) = false := by
        simp only [beq_eq_false_iff_ne, ne_eq]
        exact_mod_cast h
      simp only [List.map_cons, if_neg h, List.find?_cons, hb]
      exact ih

theorem get_payment_by_db_id_after_status_update (db : DB) (i : Nat) (st : String) :
    get_payment_by_db_id (update_payment_status_by_db_id db i st) (i : Int) =
      (get_payment_by_db_id db (i : Int)).map (fun p => { p with status := st }) := by
  induction db with
  | nil => rfl
  | cons a t ih =>
    unfold update_payment_status_by_db_id get_payment_by_db_id at ih ⊢
    by_cases h : a.payment_id = i
    · simp [h]
    · have hb : ((a.payment_id : Int) == (i : Int)) = false := by
        simp only [beq_eq_false_iff_ne, ne_eq]
        exact_mod_cast h
      simp only [List.map_cons, if_neg h, List.find?_cons, hb]
      exact ih

theorem pyInt_one : pyInt 1 = 1 := by decide

theorem mark_failed_status (db0 : DB) (i : Nat) :
    (get_payment_by_db_id (update_payment_status_by_db_id db0 i "failed_creation")
        (i : Int)).map PaymentRecord.status =
      (get_payment_by_db_id db0 (i : Int)).map (fun _ => "failed_creation") := by
  rw [get_payment_by_db_id_after_status_update]
  cases get_payment_by_db_id db0 (i : Int) <;> simp

theorem provider_update_const_map (db0 : DB) (i : Nat) (pid st X : String) :
    (get_payment_by_db_id (update_provider_payment_and_status db0 i pid st)
        (i : Int)).map (fun _ => X) =
      (get_payment_by_db_id db0 (i : Int)).map (fun _ => X) := by
  rw [get_payment_by_db_id_after_provider_update]
  cases get_payment_by_db_id db0 (i : Int) <;> simp

theorem severpay_route_obj (cfg : SPConfig) (hsig : SPPayload → String) (f : Faults)
    (db : DB) (p : SPPayload) (hc : cfg.configured = true)
    (hv : sp_validate_signature cfg.token hsig p = true) :
    severpay_webhook_route cfg hsig f db (.obj p) =
      severpay_event cfg f db (pyLower (optStr p.eventType)) p.data := by
  simp [severpay_webhook_route, hc, hv]

theorem severpay_event_payin (cfg : SPConfig) (f : Faults) (db : DB) (d : SPData) :
    severpay_event cfg f db "payin" (.obj d) = severpay_process cfg f db d := by
  simp [severpay_event]

theorem severpay_process_found (cfg : SPConfig) (f : Faults) (db : DB) (d : SPData)
    (pr : PaymentRecord)
    (h : (severpay_lookup db (spOrderId d.order_id) (pyOr2 d.id d.uid)).1 = some pr) :
    severpay_process cfg f db d =
      severpay_dispatch cfg f db
        (severpay_lookup db (spOrderId d.order_id) (pyOr2 d.id d.uid)).2 pr
        (pyOr2 d.id d.uid) (pyLower (optStr d.status)) := by
  simp only [severpay_process]
  rw [h]

theorem severpay_dispatch_success (cfg : SPConfig) (f : Faults) (db : DB)
    (lk : List String) (pr : PaymentRecord) (ppid : String) :
    severpay_dispatch cfg f db lk pr ppid "success" =
      severpay_success cfg f db lk pr ppid := by
  simp [severpay_dispatch]

theorem severpay_dispatch_failure (cfg : SPConfig) (f : Faults) (db : DB)
    (lk : List String) (pr : PaymentRecord) (ppid : String) (st : String)
    (hst : st = "fail" ∨ st = "decline") :
    severpay_dispatch cfg f db lk pr ppid st = severpay_failed f db lk pr ppid := by
  rcases hst with h | h <;> subst h <;> simp [severpay_dispatch]

theorem severpay_success_fault (cfg : SPConfig) (f : Faults) (db : DB)
    (lk : List String) (pr : PaymentRecord) (ppid : String)
    (hf : f.updateRaises = true ∨ f.activateRaises = true ∨
          (cfg.trafficSaleMode = false ∧ f.referralRaises = true) ∨
          f.commitRaises = true) :
    (severpay_success cfg f db lk pr ppid).respStatus = 500 ∧
      (severpay_success cfg f db lk pr ppid).db = db := by
  cases hu : f.updateRaises <;> cases ha : f.activateRaises <;>
    cases hr : f.referralRaises <;> cases hcm : f.commitRaises <;>
    cases ht : cfg.trafficSaleMode <;>
    simp_all [severpay_success, pureResult]

theorem severpay_success_committed (cfg : SPConfig) (f : Faults) (db : DB)
    (lk : List String) (pr : PaymentRecord) (ppid : String)
    (hu : f.updateRaises = false) (ha : f.activateRaises = false)
    (hr : f.referralRaises = false) (hcm : f.commitRaises = false) :
    severpay_success cfg f db lk pr ppid =
      { respStatus := 200, respBody := "ok"
        db := update_provider_payment_and_status db pr.payment_id
            (if ppid ≠ "" then ppid else toString pr.payment_id) "succeeded"
        lookups := lk
        activations := [activation_call cfg.trafficSaleMode "severpay" pr]
        referrals := if !cfg.trafficSaleMode then [referral_call pr] else []
        userMsgs := [(pr.user_id, "payment_successful")]
        adminNotifs := 1
        warnings := (if f.notifyUserFails then ["notify_user_failed"] else []) ++
                    (if f.notifyAdminFails then ["notify_admin_failed"] else []) } := by
  simp [severpay_success, hu, ha, hr, hcm]

theorem severpay_failed_committed (f : Faults) (db : DB) (lk : List String)
    (pr : PaymentRecord) (ppid : String)
    (hu : f.updateRaises = false) (hcm : f.commitRaises = false) :
    severpay_failed f db lk pr ppid =
      { pureResult 200 "ok"
          (update_provider_payment_and_status db pr.payment_id
            (if ppid ≠ "" then ppid else toString pr.payment_id) "failed") with
          lookups := lk, userMsgs := [(pr.user_id, "payment_failed")] } := by
  simp [severpay_failed, hu, hcm]

theorem platega_route_obj (cfg : PlategaConfig) (f : Faults) (db : DB)
    (req : PlategaRequest) (d : PlategaData) (hc : cfg.configured = true)
    (hb : req.body = .obj d) (hh : platega_headers_ok cfg req = true) :
    platega_webhook_route cfg f db req = platega_process cfg f db d := by
  simp [platega_webhook_route, hc, hb, hh]

theorem platega_process_found (cfg : PlategaConfig) (f : Faults) (db : DB)
    (d : PlategaData) (pr : PaymentRecord)
    (ht : pyStrip (pyOr2 d.id d.transactionId) ≠ "")
    (hs : pyUpper (optStr d.status) ≠ "")
    (h : get_payment_by_provider_payment_id db (pyStrip (pyOr2 d.id d.transactionId)) = some pr) :
    platega_process cfg f db d =
      platega_dispatch cfg f db pr (pyStrip (pyOr2 d.id d.transactionId))
        (pyUpper (optStr d.status)) d.amount := by
  simp only [platega_process]
  rw [if_neg (by simp [ht, hs]), h]

theorem platega_dispatch_confirmed (cfg : PlategaConfig) (f : Faults) (db : DB)
    (pr : PaymentRecord) (tid : String) (am : Option PAmount)
    (hpr : pr.status ≠ "succeeded") :
    platega_dispatch cfg f db pr tid "CONFIRMED" am =
      platega_confirm cfg f db ["payments_by_provider_id"] pr tid
        (platega_amount_warnings pr am) := by
  simp [platega_dispatch, hpr]

theorem platega_dispatch_cancel (cfg : PlategaConfig) (f : Faults) (db : DB)
    (pr : PaymentRecord) (tid : String) (am : Option PAmount) (st : String)
    (hst : st = "CANCELED" ∨ st = "CANCELLED" ∨ st = "CHARGEBACKED") :
    platega_dispatch cfg f db pr tid st am =
      platega_cancel f db ["payments_by_provider_id"] pr tid := by
  rcases hst with h | h | h <;> subst h <;> simp [platega_dispatch]

theorem platega_confirm_fault (cfg : PlategaConfig) (f : Faults) (db : DB)
    (lk : List String) (pr : PaymentRecord) (tid : String) (aw : List String)
    (hf : f.updateRaises = true ∨ f.activateRaises = true ∨
          (cfg.trafficSaleMode = false ∧ f.referralRaises = true) ∨
          f.commitRaises = true) :
    (platega_confirm cfg f db lk pr tid aw).respStatus = 500 ∧
      (platega_confirm cfg f db lk pr tid aw).db = db := by
  cases hu : f.updateRaises <;> cases ha : f.activateRaises <;>
    cases hr : f.referralRaises <;> cases hcm : f.commitRaises <;>
    cases ht : cfg.trafficSaleMode <;>
    simp_all [platega_confirm, pureResult]

theorem platega_confirm_committed (cfg : PlategaConfig) (f : Faults) (db : DB)
    (lk : List String) (pr : PaymentRecord) (tid : String) (aw : List String)
    (hu : f.updateRaises = false) (ha : f.activateRaises = false)
    (hr : f.referralRaises = false) (hcm : f.commitRaises = false) :
    platega_confirm cfg f db lk pr tid aw =
      { respStatus := 200, respBody := "ok"
        db := update_provider_payment_and_status db pr.payment_id tid "succeeded"
        lookups := lk
        activations := [activation_call cfg.trafficSaleMode "platega" pr]
        referrals := if !cfg.trafficSaleMode then [referral_call pr] else []
        userMsgs := [(pr.user_id, "payment_successful")]
        adminNotifs := 1
        warnings := aw ++ (if f.notifyUserFails then ["notify_user_failed"] else []) ++
                    (if f.notifyAdminFails then ["notify_admin_failed"] else []) } := by
  simp [platega_confirm, hu, ha, hr, hcm]

theorem platega_cancel_committed (f : Faults) (db : DB) (lk : List String)
    (pr : PaymentRecord) (tid : String)
    (hu : f.updateRaises = false) (hcm : f.commitRaises = false) :
    platega_cancel f db lk pr tid =
      { pureResult 200 "ok_canceled"
          (update_provider_payment_and_status db pr.payment_id tid "canceled") with
          lookups := lk, userMsgs := [(pr.user_id, "payment_failed")] } := by
  simp [platega_cancel, hu, hcm]

/-! ## Claim theorems -/

/-- C1: the claim is FALSE on the code — the SeverPay webhook route has no
"already succeeded" guard (unlike the Platega route, line 157), so delivering
the same valid `success` callback for payment 1 twice, sequentially and
fault-free, invokes the entitlement granter once per delivery and applies the
referral bonus once per delivery: two invocations in total where the claim
demands exactly one.  The record is `succeeded` after the first delivery and
the second delivery is still acknowledged with 200 — yet it re-grants. -/
theorem severpay_second_success_delivery_regrants :
    (severpay_webhook_route sampleSPCfg sampleSig Faults.noFaults [samplePendingRec]
        (.obj (spPayload "success"))).activations.length = 1 ∧
    (get_payment_by_db_id (severpay_webhook_route sampleSPCfg sampleSig Faults.noFaults
        [samplePendingRec] (.obj (spPayload "success"))).db 1).map PaymentRecord.status =
      some "succeeded" ∧
    (severpay_webhook_route sampleSPCfg sampleSig Faults.noFaults
        (severpay_webhook_route sampleSPCfg sampleSig Faults.noFaults [samplePendingRec]
          (.obj (spPayload "success"))).db
        (.obj (spPayload "success"))).activations.length = 1 ∧
    (severpay_webhook_route sampleSPCfg sampleSig Faults.noFaults
        (severpay_webhook_route sampleSPCfg sampleSig Faults.noFaults [samplePendingRec]
          (.obj (spPayload "success"))).db
        (.obj (spPayload "success"))).referrals.length = 1 ∧
    (severpay_webhook_route sampleSPCfg sampleSig Faults.noFaults
        (severpay_webhook_route sampleSPCfg sampleSig Faults.noFaults [samplePendingRec]
          (.obj (spPayload "success"))).db
        (.obj (spPayload "success"))).respStatus = 200 := by
  decide

/-- C2: the claim is FALSE on the code — the SeverPay `process`/`new` branch
(lines 349-361) unconditionally writes status `pending_severpay` through
`update_provider_payment_and_status`, so a `process` callback for a record
that is already `succeeded` moves its status back to `pending_severpay`
(and is acknowledged 200), where the claim says a succeeded record's status
never changes. -/
theorem severpay_pending_callback_overwrites_succeeded :
    (get_payment_by_db_id (severpay_webhook_route sampleSPCfg sampleSig Faults.noFaults
        [sampleSucceededRec] (.obj (spPayload "process"))).db 1).map PaymentRecord.status =
      some "pending_severpay" ∧
    (severpay_webhook_route sampleSPCfg sampleSig Faults.noFaults
        [sampleSucceededRec] (.obj (spPayload "process"))).respStatus = 200 := by
  decide

/-- C3 counterexample: as stated the claim is false.  A Platega request whose
`X-Secret` header is wrong but whose body is not valid JSON is answered 400
(`bad_request`), not 403, because the route parses the body before checking
the headers; and a request with wrong headers to an unconfigured service is
answered 503.  (No database access happens in either case.) -/
theorem platega_invalid_auth_not_always_403 :
    (platega_webhook_route samplePlategaCfg Faults.noFaults [samplePlategaRec]
        { headerMerchant := some "WRONG", headerSecret := some "WRONG"
          body := .invalidJson }).respStatus = 400 ∧
    (platega_webhook_route { samplePlategaCfg with configured := false }
        Faults.noFaults [samplePlategaRec]
        { plategaReq "CONFIRMED" none with headerSecret := some "WRONG" }).respStatus
      = 503 := by
  decide

/-- C3 (amended): for a *configured* service and a request whose body is
valid JSON (for SeverPay: any JSON object payload), an invalid
authentication proof — SeverPay: missing or mismatching HMAC signature;
Platega: `X-MerchantId`/`X-Secret` not equal to the configured pair — is
answered 403 and the route performs no payment lookup, no record mutation
and no entitlement action: the result is exactly the pure 403 response. -/
theorem webhook_invalid_auth_rejected_before_any_db_access :
    (∀ (cfg : SPConfig) (hsig : SPPayload → String) (f : Faults) (db : DB)
       (p : SPPayload),
      cfg.configured = true →
      sp_validate_signature cfg.token hsig p = false →
      severpay_webhook_route cfg hsig f db (.obj p) =
        pureResult 403 "invalid_signature" db) ∧
    (∀ (cfg : PlategaConfig) (f : Faults) (db : DB) (req : PlategaRequest)
       (d : PlategaData),
      cfg.configured = true →
      req.body = .obj d →
      platega_headers_ok cfg req = false →
      platega_webhook_route cfg f db req = pureResult 403 "forbidden" db) := by
  constructor
  · intro cfg hsig f db p hc hv
    simp [severpay_webhook_route, hc, hv]
  · intro cfg f db req d hc hb hh
    simp [platega_webhook_route, hc, hb, hh]

/-- C3 witness: the amended theorem applied to a tampered SeverPay signature
and a wrong Platega secret header on concrete states. -/
theorem webhook_invalid_auth_rejected_witness :
    severpay_webhook_route sampleSPCfg sampleSig Faults.noFaults [samplePendingRec]
        (.obj { spPayload "success" with sign := some "BAD" }) =
      pureResult 403 "invalid_signature" [samplePendingRec] ∧
    platega_webhook_route samplePlategaCfg Faults.noFaults [samplePlategaRec]
        { plategaReq "CONFIRMED" none with headerSecret := some "BAD" } =
      pureResult 403 "forbidden" [samplePlategaRec] := by
  exact ⟨webhook_invalid_auth_rejected_before_any_db_access.1 sampleSPCfg sampleSig
          Faults.noFaults [samplePendingRec] _ rfl (by decide),
        webhook_invalid_auth_rejected_before_any_db_access.2 samplePlategaCfg
          Faults.noFaults [samplePlategaRec] _
          { id := some "tx-1", transactionId := none, status := some "CONFIRMED"
            amount := none } rfl rfl (by decide)⟩

/-- C4: on a success/CONFIRMED webhook for a found record, if the status
update, the entitlement activation, the referral-bonus application (invoked
only in subscription mode) or the commit raises, the route answers 500 and
the database is exactly its pre-transaction state, for both providers. -/
theorem success_webhook_fault_rolls_back_with_500 :
    (∀ (cfg : SPConfig) (hsig : SPPayload → String) (f : Faults) (db : DB)
       (p : SPPayload) (d : SPData) (pr : PaymentRecord),
      cfg.configured = true →
      sp_validate_signature cfg.token hsig p = true →
      pyLower (optStr p.eventType) = "payin" →
      p.data = .obj d →
      pyLower (optStr d.status) = "success" →
      (severpay_lookup db (spOrderId d.order_id) (pyOr2 d.id d.uid)).1 = some pr →
      (f.updateRaises = true ∨ f.activateRaises = true ∨
        (cfg.trafficSaleMode = false ∧ f.referralRaises = true) ∨
        f.commitRaises = true) →
      (severpay_webhook_route cfg hsig f db (.obj p)).respStatus = 500 ∧
        (severpay_webhook_route cfg hsig f db (.obj p)).db = db) ∧
    (∀ (cfg : PlategaConfig) (f : Faults) (db : DB) (req : PlategaRequest)
       (d : PlategaData) (pr : PaymentRecord),
      cfg.configured = true →
      req.body = .obj d →
      platega_headers_ok cfg req = true →
      pyStrip (pyOr2 d.id d.transactionId) ≠ "" →
      pyUpper (optStr d.status) = "CONFIRMED" →
      get_payment_by_provider_payment_id db
        (pyStrip (pyOr2 d.id d.transactionId)) = some pr →
      pr.status ≠ "succeeded" →
      (f.updateRaises = true ∨ f.activateRaises = true ∨
        (cfg.trafficSaleMode = false ∧ f.referralRaises = true) ∨
        f.commitRaises = true) →
      (platega_webhook_route cfg f db req).respStatus = 500 ∧
        (platega_webhook_route cfg f db req).db = db) := by
  constructor
  · intro cfg hsig f db p d pr hc hv he hd hs hfound hfault
    have e1 : severpay_webhook_route cfg hsig f db (.obj p) =
        severpay_success cfg f db
          (severpay_lookup db (spOrderId d.order_id) (pyOr2 d.id d.uid)).2 pr
          (pyOr2 d.id d.uid) := by
      rw [severpay_route_obj cfg hsig f db p hc hv, he, hd, severpay_event_payin,
          severpay_process_found cfg f db d pr hfound, hs, severpay_dispatch_success]
    rw [e1]
    exact severpay_success_fault cfg f db _ pr _ hfault
  · intro cfg f db req d pr hc hb hh htid hs hfound hpr hfault
    have e1 : platega_webhook_route cfg f db req =
        platega_confirm cfg f db ["payments_by_provider_id"] pr
          (pyStrip (pyOr2 d.id d.transactionId))
          (platega_amount_warnings pr d.amount) := by
      rw [platega_route_obj cfg f db req d hc hb hh,
          platega_process_found cfg f db d pr htid (by rw [hs]; decide) hfound, hs,
          platega_dispatch_confirmed cfg f db pr _ _ hpr]
    rw [e1]
    exact platega_confirm_fault cfg f db _ pr _ _ hfault

/-- C4 witness: a commit failure on a SeverPay success callback and an
activation failure on a Platega CONFIRMED callback both roll back and
answer 500 on concrete states. -/
theorem success_webhook_fault_rolls_back_witness :
    ((severpay_webhook_route sampleSPCfg sampleSig
        { Faults.noFaults with commitRaises := true } [samplePendingRec]
        (.obj (spPayload "success"))).respStatus = 500 ∧
      (severpay_webhook_route sampleSPCfg sampleSig
        { Faults.noFaults with commitRaises := true } [samplePendingRec]
        (.obj (spPayload "success"))).db = [samplePendingRec]) ∧
    ((platega_webhook_route samplePlategaCfg
        { Faults.noFaults with activateRaises := true } [samplePlategaRec]
        (plategaReq "CONFIRMED" none)).respStatus = 500 ∧
      (platega_webhook_route samplePlategaCfg
        { Faults.noFaults with activateRaises := true } [samplePlategaRec]
        (plategaReq "CONFIRMED" none)).db = [samplePlategaRec]) := by
  constructor
  · exact success_webhook_fault_rolls_back_with_500.1 sampleSPCfg sampleSig
      { Faults.noFaults with commitRaises := true } [samplePendingRec]
      (spPayload "success")
      { id := some "prov-1", uid := none, order_id := .intVal 1, status := some "success" }
      samplePendingRec rfl (by decide) (by decide) rfl (by decide) (by decide)
      (Or.inr (Or.inr (Or.inr rfl)))
  · exact success_webhook_fault_rolls_back_with_500.2 samplePlategaCfg
      { Faults.noFaults with activateRaises := true } [samplePlategaRec]
      (plategaReq "CONFIRMED" none)
      { id := some "tx-1", transactionId := none, status := some "CONFIRMED", amount := none }
      samplePlategaRec rfl rfl (by decide) (by decide) (by decide) (by decide)
      (by decide) (Or.inr (Or.inl rfl))

/-- C5: a Platega CONFIRMED callback whose reported amount differs (at cent
precision) from the stored amount still completes: the record becomes
`succeeded` in the store, the entitlement granter is invoked exactly once
and with the locally stored `payment.amount` (not the callback amount), an
`amount_mismatch` warning is logged, and the response is 200 — the mismatch
causes neither a rejection nor a rollback. -/
theorem platega_amount_mismatch_nonblocking :
    ∀ (cfg : PlategaConfig) (f : Faults) (db : DB) (req : PlategaRequest)
      (d : PlategaData) (pr : PaymentRecord) (q : ℚ),
      cfg.configured = true →
      req.body = .obj d →
      platega_headers_ok cfg req = true →
      pyStrip (pyOr2 d.id d.transactionId) ≠ "" →
      pyUpper (optStr d.status) = "CONFIRMED" →
      get_payment_by_provider_payment_id db
        (pyStrip (pyOr2 d.id d.transactionId)) = some pr →
      pr.status ≠ "succeeded" →
      d.amount = some (.num q) →
      cents2 q ≠ cents2 pr.amount →
      f.updateRaises = false → f.activateRaises = false →
      f.referralRaises = false → f.commitRaises = false →
      (platega_webhook_route cfg f db req).respStatus = 200 ∧
      "amount_mismatch" ∈ (platega_webhook_route cfg f db req).warnings ∧
      (platega_webhook_route cfg f db req).activations =
        [activation_call cfg.trafficSaleMode "platega" pr] ∧
      (activation_call cfg.trafficSaleMode "platega" pr).amount = pr.amount ∧
      (platega_webhook_route cfg f db req).db =
        update_provider_payment_and_status db pr.payment_id
          (pyStrip (pyOr2 d.id d.transactionId)) "succeeded" := by
  intro cfg f db req d pr q hc hb hh htid hs hfound hpr ham hmis hu ha hr hcm
  have haw : platega_amount_warnings pr d.amount = ["amount_mismatch"] := by
    rw [ham]; simp [platega_amount_warnings, hmis]
  have e1 : platega_webhook_route cfg f db req =
      platega_confirm cfg f db ["payments_by_provider_id"] pr
        (pyStrip (pyOr2 d.id d.transactionId)) ["amount_mismatch"] := by
    rw [platega_route_obj cfg f db req d hc hb hh,
        platega_process_found cfg f db d pr htid (by rw [hs]; decide) hfound, hs,
        platega_dispatch_confirmed cfg f db pr _ _ hpr, haw]
  rw [e1, platega_confirm_committed cfg f db _ pr _ _ hu ha hr hcm]
  exact ⟨rfl, by simp, rfl, by simp [activation_call], rfl⟩

/-- C5 witness: a CONFIRMED callback reporting 300 for the stored 299 RUB
record still succeeds with the stored amount and only a warning. -/
theorem platega_amount_mismatch_nonblocking_witness :
    (platega_webhook_route samplePlategaCfg Faults.noFaults [samplePlategaRec]
        (plategaReq "CONFIRMED" (some (.num 300)))).respStatus = 200 ∧
    "amount_mismatch" ∈ (platega_webhook_route samplePlategaCfg Faults.noFaults
        [samplePlategaRec] (plategaReq "CONFIRMED" (some (.num 300)))).warnings ∧
    (platega_webhook_route samplePlategaCfg Faults.noFaults [samplePlategaRec]
        (plategaReq "CONFIRMED" (some (.num 300)))).activations =
      [activation_call samplePlategaCfg.trafficSaleMode "platega" samplePlategaRec] ∧
    (activation_call samplePlategaCfg.trafficSaleMode "platega" samplePlategaRec).amount =
      samplePlategaRec.amount ∧
    (platega_webhook_route samplePlategaCfg Faults.noFaults [samplePlategaRec]
        (plategaReq "CONFIRMED" (some (.num 300)))).db =
      update_provider_payment_and_status [samplePlategaRec]
        samplePlategaRec.payment_id
        (pyStrip (pyOr2 (some "tx-1") none)) "succeeded" := by
  exact platega_amount_mismatch_nonblocking samplePlategaCfg Faults.noFaults
    [samplePlategaRec] (plategaReq "CONFIRMED" (some (.num 300)))
    { id := some "tx-1", transactionId := none, status := some "CONFIRMED"
      amount := some (.num 300) }
    samplePlategaRec 300 rfl rfl (by decide) (by decide) (by decide) (by decide)
    (by decide) rfl (by decide) rfl rfl rfl rfl

/-- C6: a Platega CANCELED/CANCELLED/CHARGEBACKED callback on a
`pending_platega` record marks it `canceled`, triggers the best-effort
"payment failed" user message, performs no entitlement or referral action,
and is answered 200 with body `ok_canceled`; a SeverPay `fail`/`decline`
callback analogously marks the record `failed` with no entitlement action
and a 200 response. -/
theorem failure_webhook_cancels_without_entitlement :
    (∀ (cfg : PlategaConfig) (f : Faults) (db : DB) (req : PlategaRequest)
       (d : PlategaData) (pr : PaymentRecord),
      cfg.configured = true →
      req.body = .obj d →
      platega_headers_ok cfg req = true →
      pyStrip (pyOr2 d.id d.transactionId) ≠ "" →
      (pyUpper (optStr d.status) = "CANCELED" ∨
        pyUpper (optStr d.status) = "CANCELLED" ∨
        pyUpper (optStr d.status) = "CHARGEBACKED") →
      get_payment_by_provider_payment_id db
        (pyStrip (pyOr2 d.id d.transactionId)) = some pr →
      pr.status = "pending_platega" →
      f.updateRaises = false → f.commitRaises = false →
      platega_webhook_route cfg f db req =
        { pureResult 200 "ok_canceled"
            (update_provider_payment_and_status db pr.payment_id
              (pyStrip (pyOr2 d.id d.transactionId)) "canceled") with
            lookups := ["payments_by_provider_id"]
            userMsgs := [(pr.user_id, "payment_failed")] }) ∧
    (∀ (cfg : SPConfig) (hsig : SPPayload → String) (f : Faults) (db : DB)
       (p : SPPayload) (d : SPData) (pr : PaymentRecord),
      cfg.configured = true →
      sp_validate_signature cfg.token hsig p = true →
      pyLower (optStr p.eventType) = "payin" →
      p.data = .obj d →
      (pyLower (optStr d.status) = "fail" ∨ pyLower (optStr d.status) = "decline") →
      (severpay_lookup db (spOrderId d.order_id) (pyOr2 d.id d.uid)).1 = some pr →
      f.updateRaises = false → f.commitRaises = false →
      severpay_webhook_route cfg hsig f db (.obj p) =
        { pureResult 200 "ok"
            (update_provider_payment_and_status db pr.payment_id
              (if pyOr2 d.id d.uid ≠ "" then pyOr2 d.id d.uid
               else toString pr.payment_id) "failed") with
            lookups := (severpay_lookup db (spOrderId d.order_id) (pyOr2 d.id d.uid)).2
            userMsgs := [(pr.user_id, "payment_failed")] }) := by
  constructor
  · intro cfg f db req d pr hc hb hh htid hst hfound hpr hu hcm
    have hsne : pyUpper (optStr d.status) ≠ "" := by
      rcases hst with h | h | h <;> rw [h] <;> decide
    rw [platega_route_obj cfg f db req d hc hb hh,
        platega_process_found cfg f db d pr htid hsne hfound,
        platega_dispatch_cancel cfg f db pr _ _ _ hst,
        platega_cancel_committed f db _ pr _ hu hcm]
  · intro cfg hsig f db p d pr hc hv he hd hst hfound hu hcm
    rw [severpay_route_obj cfg hsig f db p hc hv, he, hd, severpay_event_payin,
        severpay_process_found cfg f db d pr hfound,
        severpay_dispatch_failure cfg f db _ pr _ _ hst,
        severpay_failed_committed f db _ pr _ hu hcm]

/-- C6 witness: a concrete CANCELED Platega callback and a concrete `fail`
SeverPay callback on pending records. -/
theorem failure_webhook_cancels_witness :
    platega_webhook_route samplePlategaCfg Faults.noFaults [samplePlategaRec]
        (plategaReq "CANCELED" none) =
      { pureResult 200 "ok_canceled"
          (update_provider_payment_and_status [samplePlategaRec]
            samplePlategaRec.payment_id
            (pyStrip (pyOr2 (some "tx-1") none)) "canceled") with
          lookups := ["payments_by_provider_id"]
          userMsgs := [(samplePlategaRec.user_id, "payment_failed")] } ∧
    severpay_webhook_route sampleSPCfg sampleSig Faults.noFaults [samplePendingRec]
        (.obj (spPayload "fail")) =
      { pureResult 200 "ok"
          (update_provider_payment_and_status [samplePendingRec]
            samplePendingRec.payment_id
            (if pyOr2 (some "prov-1") none ≠ "" then pyOr2 (some "prov-1") none
             else toString samplePendingRec.payment_id) "failed") with
          lookups := (severpay_lookup [samplePendingRec] (spOrderId (.intVal 1))
            (pyOr2 (some "prov-1") none)).2
          userMsgs := [(samplePendingRec.user_id, "payment_failed")] } := by
  constructor
  · exact failure_webhook_cancels_without_entitlement.1 samplePlategaCfg
      Faults.noFaults [samplePlategaRec] (plategaReq "CANCELED" none)
      { id := some "tx-1", transactionId := none, status := some "CANCELED"
        amount := none }
      samplePlategaRec rfl rfl (by decide) (by decide) (Or.inl (by decide))
      (by decide) rfl rfl rfl
  · exact failure_webhook_cancels_without_entitlement.2 sampleSPCfg sampleSig
      Faults.noFaults [samplePendingRec] (spPayload "fail")
      { id := some "prov-1", uid := none, order_id := .intVal 1, status := some "fail" }
      samplePendingRec rfl (by decide) (by decide) rfl (Or.inl (by decide))
      (by decide) rfl rfl

/-- C7: `create_payment` / `create_transaction` are total functions of the
provider-side outcome (exceptions from the HTTP call are caught by the
`except Exception` clause and enter as the `exc` outcome), and every failure
class — unconfigured service, raised exception (network error / timeout),
non-JSON response body, non-200 HTTP status, and (SeverPay) a falsy `status`
field or an empty body — yields `success = false` with a diagnostic
payload. -/
theorem provider_create_calls_flag_all_failures :
    ∀ (configured : Bool) (outcome : ApiOutcome),
      (configured = false →
        severpay_create_payment configured outcome = (false, .notConfigured) ∧
        platega_create_transaction configured outcome = (false, .notConfigured)) ∧
      (∀ m, outcome = .exc m →
        (severpay_create_payment configured outcome).1 = false ∧
        (platega_create_transaction configured outcome).1 = false) ∧
      (∀ s raw, outcome = .respInvalidJson s raw →
        (severpay_create_payment configured outcome).1 = false ∧
        (platega_create_transaction configured outcome).1 = false) ∧
      (∀ s flag, outcome = .respObj s flag → s ≠ 200 →
        (severpay_create_payment configured outcome).1 = false ∧
        (platega_create_transaction configured outcome).1 = false) ∧
      (∀ s flag, outcome = .respObj s flag → flag = false →
        (severpay_create_payment configured outcome).1 = false) ∧
      (∀ s, outcome = .respEmpty s →
        (severpay_create_payment configured outcome).1 = false ∧
        (s ≠ 200 → (platega_create_transaction configured outcome).1 = false)) := by
  intro configured outcome
  refine ⟨?_, ?_, ?_, ?_, ?_, ?_⟩
  · intro h
    subst h
    simp [severpay_create_payment, platega_create_transaction]
  · intro m h
    subst h
    cases configured <;> simp [severpay_create_payment, platega_create_transaction]
  · intro s raw h
    subst h
    cases configured <;> simp [severpay_create_payment, platega_create_transaction]
  · intro s flag h hs
    subst h
    cases configured <;>
      simp [severpay_create_payment, platega_create_transaction, hs]
  · intro s flag h hflag
    subst h
    subst hflag
    cases configured <;> simp [severpay_create_payment]
  · intro s h
    subst h
    refine ⟨?_, ?_⟩
    · cases configured <;> simp [severpay_create_payment]
    · intro hs
      cases configured <;> simp [platega_create_transaction, hs]

/-- C7 witness: a raised timeout, a 500 response and an unconfigured
service all yield `success = false`. -/
theorem provider_create_calls_flag_failures_witness :
    (severpay_create_payment true (.exc "timeout")).1 = false ∧
    (platega_create_transaction true (.respObj 500 true)).1 = false ∧
    (severpay_create_payment false (.respObj 200 true)).1 = false := by
  refine ⟨?_, ?_, ?_⟩
  · exact ((provider_create_calls_flag_all_failures true (.exc "timeout")).2.1
      "timeout" rfl).1
  · exact ((provider_create_calls_flag_all_failures true
      (.respObj 500 true)).2.2.2.1 500 true rfl (by decide)).2
  · rw [((provider_create_calls_flag_all_failures false (.respObj 200 true)).1
      rfl).1]

/-- C8: after a pending record was inserted, if the provider's create-intent
call failed (`success = false`, which is also what a timeout produces per
C7) or returned no payment link, the handler sets the record's status to
`failed_creation`, shows the gateway-error message, and never invokes the
entitlement granter — for both the SeverPay and the FreeKassa handler
(assuming the `failed_creation` write itself does not raise). -/
theorem creation_failure_marked_failed_creation :
    (∀ (success : Bool) (resp : SPCreateResp) (storeIdRaises : Bool) (db : DB)
       (rec : PaymentRecord),
      (success = false ∨ pyOr3 resp.url resp.payment_url resp.paymentUrl = "") →
      (severpay_pay_handler_tail success resp storeIdRaises false db rec).userMessage =
          "error_payment_gateway" ∧
      (get_payment_by_db_id
          (severpay_pay_handler_tail success resp storeIdRaises false db rec).db
          (rec.payment_id : Int)).map PaymentRecord.status =
        (get_payment_by_db_id db (rec.payment_id : Int)).map
          (fun _ => "failed_creation") ∧
      (severpay_pay_handler_tail success resp storeIdRaises false db rec).activations
        = []) ∧
    (∀ (success : Bool) (resp : FKCreateResp) (storeIdRaises : Bool) (db : DB)
       (rec : PaymentRecord),
      (success = false ∨ optStr resp.location = "") →
      (freekassa_pay_handler_tail success resp storeIdRaises false db rec).userMessage =
          "error_payment_gateway" ∧
      (get_payment_by_db_id
          (freekassa_pay_handler_tail success resp storeIdRaises false db rec).db
          (rec.payment_id : Int)).map PaymentRecord.status =
        (get_payment_by_db_id db (rec.payment_id : Int)).map
          (fun _ => "failed_creation") ∧
      (freekassa_pay_handler_tail success resp storeIdRaises false db rec).activations
        = []) := by
  constructor
  · intro success resp sir db rec hfail
    cases success with
    | false =>
      exact ⟨rfl, mark_failed_status db rec.payment_id, rfl⟩
    | true =>
      have hlink : pyOr3 resp.url resp.payment_url resp.paymentUrl = "" := by
        rcases hfail with h | h
        · exact absurd h (by simp)
        · exact h
      by_cases hp : (¬ pyOr2 resp.id resp.uid = "" ∧ sir = false)
      case neg =>
        have e : severpay_pay_handler_tail true resp sir false db rec =
            { db := update_payment_status_by_db_id db rec.payment_id "failed_creation"
              userMessage := "error_payment_gateway", activations := [] } := by
          simp [severpay_pay_handler_tail, hlink, hp]
        rw [e]
        exact ⟨rfl, mark_failed_status db rec.payment_id, rfl⟩
      case pos =>
        have e : severpay_pay_handler_tail true resp sir false db rec =
            { db := update_payment_status_by_db_id
                (update_provider_payment_and_status db rec.payment_id
                  (pyOr2 resp.id resp.uid) rec.status) rec.payment_id "failed_creation"
              userMessage := "error_payment_gateway", activations := [] } := by
          simp [severpay_pay_handler_tail, hlink, hp]
        rw [e]
        refine ⟨rfl, ?_, rfl⟩
        rw [mark_failed_status, provider_update_const_map]
  · intro success resp sir db rec hfail
    cases success with
    | false =>
      exact ⟨rfl, mark_failed_status db rec.payment_id, rfl⟩
    | true =>
      have hlink : optStr resp.location = "" := by
        rcases hfail with h | h
        · exact absurd h (by simp)
        · exact h
      by_cases hp : (¬ pyOr2 resp.orderHash resp.orderId = "" ∧ sir = false)
      case neg =>
        have e : freekassa_pay_handler_tail true resp sir false db rec =
            { db := update_payment_status_by_db_id db rec.payment_id "failed_creation"
              userMessage := "error_payment_gateway", activations := [] } := by
          simp [freekassa_pay_handler_tail, hlink, hp]
        rw [e]
        exact ⟨rfl, mark_failed_status db rec.payment_id, rfl⟩
      case pos =>
        have e : freekassa_pay_handler_tail true resp sir false db rec =
            { db := update_payment_status_by_db_id
                (update_provider_payment_and_status db rec.payment_id
                  (pyOr2 resp.orderHash resp.orderId) rec.status) rec.payment_id
                "failed_creation"
              userMessage := "error_payment_gateway", activations := [] } := by
          simp [freekassa_pay_handler_tail, hlink, hp]
        rw [e]
        refine ⟨rfl, ?_, rfl⟩
        rw [mark_failed_status, provider_update_const_map]

/-- C8 witness: a failed SeverPay create and a FreeKassa create that
returned no pay URL, on the concrete pending record. -/
theorem creation_failure_marked_witness :
    ((severpay_pay_handler_tail false
        { url := none, payment_url := none, paymentUrl := none, id := none, uid := none }
        false false [samplePendingRec] samplePendingRec).userMessage =
      "error_payment_gateway" ∧
    (get_payment_by_db_id (severpay_pay_handler_tail false
        { url := none, payment_url := none, paymentUrl := none, id := none, uid := none }
        false false [samplePendingRec] samplePendingRec).db
        (samplePendingRec.payment_id : Int)).map PaymentRecord.status =
      (get_payment_by_db_id [samplePendingRec]
        (samplePendingRec.payment_id : Int)).map (fun _ => "failed_creation") ∧
    (severpay_pay_handler_tail false
        { url := none, payment_url := none, paymentUrl := none, id := none, uid := none }
        false false [samplePendingRec] samplePendingRec).activations = []) ∧
    ((freekassa_pay_handler_tail true
        { location := none, orderHash := some "OH", orderId := none }
        false false [samplePendingRec] samplePendingRec).userMessage =
      "error_payment_gateway" ∧
    (get_payment_by_db_id (freekassa_pay_handler_tail true
        { location := none, orderHash := some "OH", orderId := none }
        false false [samplePendingRec] samplePendingRec).db
        (samplePendingRec.payment_id : Int)).map PaymentRecord.status =
      (get_payment_by_db_id [samplePendingRec]
        (samplePendingRec.payment_id : Int)).map (fun _ => "failed_creation") ∧
    (freekassa_pay_handler_tail true
        { location := none, orderHash := some "OH", orderId := none }
        false false [samplePendingRec] samplePendingRec).activations = []) := by
  constructor
  · exact creation_failure_marked_failed_creation.1 false
      { url := none, payment_url := none, paymentUrl := none, id := none, uid := none }
      false [samplePendingRec] samplePendingRec (Or.inl rfl)
  · exact creation_failure_marked_failed_creation.2 true
      { location := none, orderHash := some "OH", orderId := none }
      false [samplePendingRec] samplePendingRec (Or.inr (by decide))

/-- C9: after a success webhook transaction commits (no fault in the update,
the activation, the referral application or the commit), the outcome — a 200
response, the record committed as `succeeded`, and the single entitlement
grant — holds for *every* value of the two post-commit notification fault
flags: a failing user message or operator notification is caught and logged
and never rolls the committed state back or changes the response. -/
theorem post_commit_notification_failure_is_harmless :
    (∀ (cfg : SPConfig) (hsig : SPPayload → String) (f : Faults) (db : DB)
       (p : SPPayload) (d : SPData) (pr : PaymentRecord),
      cfg.configured = true →
      sp_validate_signature cfg.token hsig p = true →
      pyLower (optStr p.eventType) = "payin" →
      p.data = .obj d →
      pyLower (optStr d.status) = "success" →
      (severpay_lookup db (spOrderId d.order_id) (pyOr2 d.id d.uid)).1 = some pr →
      f.updateRaises = false → f.activateRaises = false →
      f.referralRaises = false → f.commitRaises = false →
      (severpay_webhook_route cfg hsig f db (.obj p)).respStatus = 200 ∧
      (severpay_webhook_route cfg hsig f db (.obj p)).db =
        update_provider_payment_and_status db pr.payment_id
          (if pyOr2 d.id d.uid ≠ "" then pyOr2 d.id d.uid
           else toString pr.payment_id) "succeeded" ∧
      (severpay_webhook_route cfg hsig f db (.obj p)).activations =
        [activation_call cfg.trafficSaleMode "severpay" pr]) ∧
    (∀ (cfg : PlategaConfig) (f : Faults) (db : DB) (req : PlategaRequest)
       (d : PlategaData) (pr : PaymentRecord),
      cfg.configured = true →
      req.body = .obj d →
      platega_headers_ok cfg req = true →
      pyStrip (pyOr2 d.id d.transactionId) ≠ "" →
      pyUpper (optStr d.status) = "CONFIRMED" →
      get_payment_by_provider_payment_id db
        (pyStrip (pyOr2 d.id d.transactionId)) = some pr →
      pr.status ≠ "succeeded" →
      f.updateRaises = false → f.activateRaises = false →
      f.referralRaises = false → f.commitRaises = false →
      (platega_webhook_route cfg f db req).respStatus = 200 ∧
      (platega_webhook_route cfg f db req).db =
        update_provider_payment_and_status db pr.payment_id
          (pyStrip (pyOr2 d.id d.transactionId)) "succeeded" ∧
      (platega_webhook_route cfg f db req).activations =
        [activation_call cfg.trafficSaleMode "platega" pr]) := by
  constructor
  · intro cfg hsig f db p d pr hc hv he hd hs hfound hu ha hr hcm
    have e1 : severpay_webhook_route cfg hsig f db (.obj p) =
        severpay_success cfg f db
          (severpay_lookup db (spOrderId d.order_id) (pyOr2 d.id d.uid)).2 pr
          (pyOr2 d.id d.uid) := by
      rw [severpay_route_obj cfg hsig f db p hc hv, he, hd, severpay_event_payin,
          severpay_process_found cfg f db d pr hfound, hs, severpay_dispatch_success]
    rw [e1, severpay_success_committed cfg f db _ pr _ hu ha hr hcm]
    exact ⟨rfl, rfl, rfl⟩
  · intro cfg f db req d pr hc hb hh htid hs hfound hpr hu ha hr hcm
    have e1 : platega_webhook_route cfg f db req =
        platega_confirm cfg f db ["payments_by_provider_id"] pr
          (pyStrip (pyOr2 d.id d.transactionId))
          (platega_amount_warnings pr d.amount) := by
      rw [platega_route_obj cfg f db req d hc hb hh,
          platega_process_found cfg f db d pr htid (by rw [hs]; decide) hfound, hs,
          platega_dispatch_confirmed cfg f db pr _ _ hpr]
    rw [e1, platega_confirm_committed cfg f db _ pr _ _ hu ha hr hcm]
    exact ⟨rfl, rfl, rfl⟩

/-- C9 witness: with both notification sends failing, the SeverPay and
Platega success webhooks still answer 200 with the committed record. -/
theorem post_commit_notification_failure_witness :
    ((severpay_webhook_route sampleSPCfg sampleSig
        { Faults.noFaults with notifyUserFails := true, notifyAdminFails := true }
        [samplePendingRec] (.obj (spPayload "success"))).respStatus = 200 ∧
      (severpay_webhook_route sampleSPCfg sampleSig
        { Faults.noFaults with notifyUserFails := true, notifyAdminFails := true }
        [samplePendingRec] (.obj (spPayload "success"))).db =
        update_provider_payment_and_status [samplePendingRec]
          samplePendingRec.payment_id
          (if pyOr2 (some "prov-1") none ≠ "" then pyOr2 (some "prov-1") none
           else toString samplePendingRec.payment_id) "succeeded" ∧
      (severpay_webhook_route sampleSPCfg sampleSig
        { Faults.noFaults with notifyUserFails := true, notifyAdminFails := true }
        [samplePendingRec] (.obj (spPayload "success"))).activations =
        [activation_call sampleSPCfg.trafficSaleMode "severpay" samplePendingRec]) ∧
    ((platega_webhook_route samplePlategaCfg
        { Faults.noFaults with notifyUserFails := true, notifyAdminFails := true }
        [samplePlategaRec] (plategaReq "CONFIRMED" none)).respStatus = 200 ∧
      (platega_webhook_route samplePlategaCfg
        { Faults.noFaults with notifyUserFails := true, notifyAdminFails := true }
        [samplePlategaRec] (plategaReq "CONFIRMED" none)).db =
        update_provider_payment_and_status [samplePlategaRec]
          samplePlategaRec.payment_id
          (pyStrip (pyOr2 (some "tx-1") none)) "succeeded" ∧
      (platega_webhook_route samplePlategaCfg
        { Faults.noFaults with notifyUserFails := true, notifyAdminFails := true }
        [samplePlategaRec] (plategaReq "CONFIRMED" none)).activations =
        [activation_call samplePlategaCfg.trafficSaleMode "platega"
          samplePlategaRec]) := by
  constructor
  · exact post_commit_notification_failure_is_harmless.1 sampleSPCfg sampleSig
      { Faults.noFaults with notifyUserFails := true, notifyAdminFails := true }
      [samplePendingRec] (spPayload "success")
      { id := some "prov-1", uid := none, order_id := .intVal 1, status := some "success" }
      samplePendingRec rfl (by decide) (by decide) rfl (by decide) (by decide)
      rfl rfl rfl rfl
  · exact post_commit_notification_failure_is_harmless.2 samplePlategaCfg
      { Faults.noFaults with notifyUserFails := true, notifyAdminFails := true }
      [samplePlategaRec] (plategaReq "CONFIRMED" none)
      { id := some "tx-1", transactionId := none, status := some "CONFIRMED"
        amount := none }
      samplePlategaRec rfl rfl (by decide) (by decide) (by decide) (by decide)
      (by decide) rfl rfl rfl rfl

/-- C10: when the found record's `subscription_duration_months` column is
NULL or 0, the `or 1` fallback makes both success-webhook routes invoke the
entitlement granter with quantity 1 — 1 month in subscription mode
(`traffic_gb` absent) and 1 GB in traffic mode (`months` 0) — never with
zero and never failing. -/
theorem null_quantity_defaults_to_one_unit :
    (∀ (cfg : SPConfig) (hsig : SPPayload → String) (f : Faults) (db : DB)
       (p : SPPayload) (d : SPData) (pr : PaymentRecord),
      cfg.configured = true →
      sp_validate_signature cfg.token hsig p = true →
      pyLower (optStr p.eventType) = "payin" →
      p.data = .obj d →
      pyLower (optStr d.status) = "success" →
      (severpay_lookup db (spOrderId d.order_id) (pyOr2 d.id d.uid)).1 = some pr →
      f.updateRaises = false → f.activateRaises = false →
      f.referralRaises = false → f.commitRaises = false →
      (pr.subscription_duration_months = none ∨
        pr.subscription_duration_months = some 0) →
      (severpay_webhook_route cfg hsig f db (.obj p)).activations =
        [activation_call cfg.trafficSaleMode "severpay" pr] ∧
      (activation_call cfg.trafficSaleMode "severpay" pr).months =
        (if cfg.trafficSaleMode then 0 else 1) ∧
      (activation_call cfg.trafficSaleMode "severpay" pr).traffic_gb =
        (if cfg.trafficSaleMode then some 1 else none)) ∧
    (∀ (cfg : PlategaConfig) (f : Faults) (db : DB) (req : PlategaRequest)
       (d : PlategaData) (pr : PaymentRecord),
      cfg.configured = true →
      req.body = .obj d →
      platega_headers_ok cfg req = true →
      pyStrip (pyOr2 d.id d.transactionId) ≠ "" →
      pyUpper (optStr d.status) = "CONFIRMED" →
      get_payment_by_provider_payment_id db
        (pyStrip (pyOr2 d.id d.transactionId)) = some pr →
      pr.status ≠ "succeeded" →
      f.updateRaises = false → f.activateRaises = false →
      f.referralRaises = false → f.commitRaises = false →
      (pr.subscription_duration_months = none ∨
        pr.subscription_duration_months = some 0) →
      (platega_webhook_route cfg f db req).activations =
        [activation_call cfg.trafficSaleMode "platega" pr] ∧
      (activation_call cfg.trafficSaleMode "platega" pr).months =
        (if cfg.trafficSaleMode then 0 else 1) ∧
      (activation_call cfg.trafficSaleMode "platega" pr).traffic_gb =
        (if cfg.trafficSaleMode then some 1 else none)) := by
  constructor
  · intro cfg hsig f db p d pr hc hv he hd hs hfound hu ha hr hcm hnull
    have horone : orOne pr.subscription_duration_months = 1 := by
      rcases hnull with h | h <;> rw [h] <;> simp [orOne]
    have e1 : severpay_webhook_route cfg hsig f db (.obj p) =
        severpay_success cfg f db
          (severpay_lookup db (spOrderId d.order_id) (pyOr2 d.id d.uid)).2 pr
          (pyOr2 d.id d.uid) := by
      rw [severpay_route_obj cfg hsig f db p hc hv, he, hd, severpay_event_payin,
          severpay_process_found cfg f db d pr hfound, hs, severpay_dispatch_success]
    refine ⟨?_, ?_, ?_⟩
    · rw [e1, severpay_success_committed cfg f db _ pr _ hu ha hr hcm]
    · cases ht : cfg.trafficSaleMode <;>
        simp [activation_call, horone, ht, pyInt_one]
    · cases ht : cfg.trafficSaleMode <;>
        simp [activation_call, horone, ht]
  · intro cfg f db req d pr hc hb hh htid hs hfound hpr hu ha hr hcm hnull
    have horone : orOne pr.subscription_duration_months = 1 := by
      rcases hnull with h | h <;> rw [h] <;> simp [orOne]
    have e1 : platega_webhook_route cfg f db req =
        platega_confirm cfg f db ["payments_by_provider_id"] pr
          (pyStrip (pyOr2 d.id d.transactionId))
          (platega_amount_warnings pr d.amount) := by
      rw [platega_route_obj cfg f db req d hc hb hh,
          platega_process_found cfg f db d pr htid (by rw [hs]; decide) hfound, hs,
          platega_dispatch_confirmed cfg f db pr _ _ hpr]
    refine ⟨?_, ?_, ?_⟩
    · rw [e1, platega_confirm_committed cfg f db _ pr _ _ hu ha hr hcm]
    · cases ht : cfg.trafficSaleMode <;>
        simp [activation_call, horone, ht, pyInt_one]
    · cases ht : cfg.trafficSaleMode <;>
        simp [activation_call, horone, ht]

/-- C10 witness: a NULL-quantity SeverPay record and a zero-quantity Platega
record both produce a grant of 1 month in subscription mode. -/
theorem null_quantity_defaults_witness :
    ((severpay_webhook_route sampleSPCfg sampleSig Faults.noFaults
        [sampleNullMonthsRec] (.obj (spPayload "success"))).activations =
      [activation_call sampleSPCfg.trafficSaleMode "severpay" sampleNullMonthsRec] ∧
      (activation_call sampleSPCfg.trafficSaleMode "severpay"
        sampleNullMonthsRec).months = (if sampleSPCfg.trafficSaleMode then 0 else 1) ∧
      (activation_call sampleSPCfg.trafficSaleMode "severpay"
        sampleNullMonthsRec).traffic_gb =
        (if sampleSPCfg.trafficSaleMode then some 1 else none)) ∧
    ((platega_webhook_route samplePlategaCfg Faults.noFaults
        [sampleZeroMonthsPlategaRec] (plategaReq "CONFIRMED" none)).activations =
      [activation_call samplePlategaCfg.trafficSaleMode "platega"
        sampleZeroMonthsPlategaRec] ∧
      (activation_call samplePlategaCfg.trafficSaleMode "platega"
        sampleZeroMonthsPlategaRec).months =
        (if samplePlategaCfg.trafficSaleMode then 0 else 1) ∧
      (activation_call samplePlategaCfg.trafficSaleMode "platega"
        sampleZeroMonthsPlategaRec).traffic_gb =
        (if samplePlategaCfg.trafficSaleMode then some 1 else none)) := by
  constructor
  · exact null_quantity_defaults_to_one_unit.1 sampleSPCfg sampleSig
      Faults.noFaults [sampleNullMonthsRec] (spPayload "success")
      { id := some "prov-1", uid := none, order_id := .intVal 1, status := some "success" }
      sampleNullMonthsRec rfl (by decide) (by decide) rfl (by decide) (by decide)
      rfl rfl rfl rfl (Or.inl rfl)
  · exact null_quantity_defaults_to_one_unit.2 samplePlategaCfg
      Faults.noFaults [sampleZeroMonthsPlategaRec] (plategaReq "CONFIRMED" none)
      { id := some "tx-1", transactionId := none, status := some "CONFIRMED"
        amount := none }
      sampleZeroMonthsPlategaRec rfl rfl (by decide) (by decide) (by decide)
      (by decide) (by decide) rfl rfl rfl rfl (Or.inr rfl)

end VpnBot
